import Mathlib

/- Shallow embedding of DbAgent's deterministic core: the intent classifier,
SQL synthesizer and safety classifier of backend/agents/db_admin.py
(SmartDBAdminAgent), the execution endpoints of backend/main.py, and the
compact schema formatter of backend/database/schema_extractor.py.

Python strings are modelled as `List Char`. `str.upper`, `str.lower`,
`str.strip`, the containment test `in`, `str.startswith`, `str.split` and
the four `re.search` patterns of `_extract_table_name` are modelled over
ASCII, which is exact on the inputs these functions are applied to. -/

def chars (s : String) : List Char := s.data

/-- Python whitespace, as `str.strip` and no-argument `str.split` use it
(ASCII part: space, tab, newline, carriage return, vertical tab, form feed). -/
def isSpaceChar (c : Char) : Bool :=
  c == ' ' || c == '\t' || c == '\n' || c == '\r' || c == Char.ofNat 11 || c == Char.ofNat 12

/-- The regex character class `\w` (ASCII part). -/
def isWordChar (c : Char) : Bool :=
  ('a' ≤ c && c ≤ 'z') || ('A' ≤ c && c ≤ 'Z') || ('0' ≤ c && c ≤ '9') || c == '_'

/-- The optional quote characters of `_extract_table_name`'s patterns. -/
def isQuoteChar (c : Char) : Bool :=
  c == '"' || c == '\'' || c == '`'

def pyLower (l : List Char) : List Char := l.map Char.toLower

def pyUpper (l : List Char) : List Char := l.map Char.toUpper

/-- Python `str.strip()`: drop leading and trailing whitespace. -/
def pyStrip (l : List Char) : List Char :=
  ((l.dropWhile isSpaceChar).reverse.dropWhile isSpaceChar).reverse

/-- Python substring containment, `needle in haystack`. -/
def containsSub (needle : List Char) : List Char → Bool
  | [] => needle.isEmpty
  | c :: rest => needle.isPrefixOf (c :: rest) || containsSub needle rest

/-- Python `any(kw in text for kw in kws)`. -/
def kwAny (kws : List String) (l : List Char) : Bool :=
  kws.any (fun kw => containsSub kw.data l)

/-- Python `text.startswith((p1, p2, ...))`. -/
def startsAny (ps : List String) (l : List Char) : Bool :=
  ps.any (fun p => p.data.isPrefixOf l)

/-- Python `str.split(sep)` for a single-character separator. -/
def splitOnChar (c : Char) : List Char → List (List Char)
  | [] => [[]]
  | b :: rest =>
    match splitOnChar c rest with
    | [] => [[]]
    | p :: ps => if b == c then [] :: p :: ps else (b :: p) :: ps

/-- Python `str.split(chr 10)`, as `_extract_table_names_from_schema` uses it. -/
def splitLines (l : List Char) : List (List Char) :=
  splitOnChar '\n' l

/-- The text after the first occurrence of the separator `c :: cs` in `l`,
`none` when the separator does not occur (Python `l.split(sep)[1:]` starts
here). -/
def afterSepFirst (c : Char) (cs : List Char) : List Char → Option (List Char)
  | [] => none
  | b :: rest =>
    if (c :: cs).isPrefixOf (b :: rest) then some ((b :: rest).drop (cs.length + 1))
    else afterSepFirst c cs rest

/-- The text before the first occurrence of the separator `c :: cs` in `l`
(the whole of `l` when the separator does not occur): Python
`l.split(sep)[0]`. -/
def beforeSepFirst (c : Char) (cs : List Char) : List Char → List Char
  | [] => []
  | b :: rest =>
    if (c :: cs).isPrefixOf (b :: rest) then []
    else b :: beforeSepFirst c cs rest

/-- Python no-argument `str.split()`: split on whitespace runs, dropping
empty pieces; `acc` holds the current word reversed. -/
def splitWsAux : List Char → List Char → List (List Char)
  | [], acc => if acc.isEmpty then [] else [acc.reverse]
  | b :: rest, acc =>
    if isSpaceChar b then
      if acc.isEmpty then splitWsAux rest [] else acc.reverse :: splitWsAux rest []
    else
      splitWsAux rest (b :: acc)

def pySplitWs (l : List Char) : List (List Char) :=
  splitWsAux l []

/-- First alternative of a regex alternation that is a prefix of `l`; returns
the remainder after it. The alternations used below have pairwise
incomparable literals, so at most one alternative matches at a position. -/
def dropAltPrefix (alts : List String) (l : List Char) : Option (List Char) :=
  alts.findSome? (fun a => if a.data.isPrefixOf l then some (l.drop a.data.length) else none)

/-- Pattern 1 of `_extract_table_name` anchored at the start of `l`:
the capture of `(?:table|from|in|for|of)\s+[quote]?(\w+)[quote]?`.
The greedy `\s+` takes the whole whitespace run; giving characters back can
never help, because a whitespace character is neither a quote nor a word
character, so backtracking into the run always fails. -/
def p1At (l : List Char) : Option (List Char) :=
  match dropAltPrefix ["table", "from", "in", "for", "of"] l with
  | none => none
  | some rest =>
    if (rest.takeWhile isSpaceChar).isEmpty then none
    else
      match rest.dropWhile isSpaceChar with
      | [] => none
      | c :: rest2 =>
        if isQuoteChar c then
          let w := rest2.takeWhile isWordChar
          if w.isEmpty then none else some w
        else
          let w := (c :: rest2).takeWhile isWordChar
          if w.isEmpty then none else some w

/-- Pattern 2 anchored at the start of `l`: the capture of
`[quote](\w+)[quote]\s+table`. The greedy `(\w+)` must take the maximal word
run, since the character after it has to be a quote (not a word character). -/
def p2At (l : List Char) : Option (List Char) :=
  match l with
  | [] => none
  | c :: rest =>
    if isQuoteChar c then
      let w := rest.takeWhile isWordChar
      if w.isEmpty then none
      else
        match rest.drop w.length with
        | [] => none
        | c2 :: rest2 =>
          if isQuoteChar c2 then
            if (rest2.takeWhile isSpaceChar).isEmpty then none
            else if (chars "table").isPrefixOf (rest2.dropWhile isSpaceChar) then some w
            else none
          else none
    else none

/-- Pattern 3 anchored at the start of `l`: the capture of `describe\s+(\w+)`. -/
def p3At (l : List Char) : Option (List Char) :=
  if (chars "describe").isPrefixOf l then
    let rest := l.drop 8
    if (rest.takeWhile isSpaceChar).isEmpty then none
    else
      let w := (rest.dropWhile isSpaceChar).takeWhile isWordChar
      if w.isEmpty then none else some w
  else none

/-- The part of pattern 4 after `columns?`: `\s+(?:in|of|for)\s+(\w+)`. -/
def p4Tail (rest : List Char) : Option (List Char) :=
  if (rest.takeWhile isSpaceChar).isEmpty then none
  else
    match dropAltPrefix ["in", "of", "for"] (rest.dropWhile isSpaceChar) with
    | none => none
    | some r3 =>
      if (r3.takeWhile isSpaceChar).isEmpty then none
      else
        let w := (r3.dropWhile isSpaceChar).takeWhile isWordChar
        if w.isEmpty then none else some w

/-- Pattern 4 anchored at the start of `l`: the capture of
`columns?\s+(?:in|of|for)\s+(\w+)`; the optional `s` is greedy, with the
usual backtracking (which can only fail, since after an unconsumed `s`
the required `\s+` cannot match). -/
def p4At (l : List Char) : Option (List Char) :=
  if (chars "column").isPrefixOf l then
    match l.drop 6 with
    | 's' :: rest2 => (p4Tail rest2).orElse (fun _ => p4Tail ('s' :: rest2))
    | rest => p4Tail rest
  else none

/-- Python `re.search`: try the anchored matcher at every position, leftmost
match first. -/
def searchAt (m : List Char → Option (List Char)) : List Char → Option (List Char)
  | [] => m []
  | c :: rest => (m (c :: rest)).orElse (fun _ => searchAt m rest)

/-- The keyword filter of `_extract_table_name`. -/
def stopWords : List (List Char) :=
  [chars "table", chars "from", chars "in", chars "for", chars "of",
   chars "the", chars "a", chars "an"]

/-- The pattern loop of `_extract_table_name`: the first pattern whose
capture is not a stop-word wins; a stop-word capture moves on to the next
pattern. -/
def scanCaptures : List (Option (List Char)) → Option (List Char)
  | [] => none
  | none :: rest => scanCaptures rest
  | some w :: rest => if stopWords.contains w then scanCaptures rest else some w

/-- `SmartDBAdminAgent._extract_table_name` (db_admin.py lines 378-396). -/
def extract_table_name (q : List Char) : Option (List Char) :=
  scanCaptures [searchAt p1At q, searchAt p2At q, searchAt p3At q, searchAt p4At q]

/-- One iteration of `_extract_table_names_from_schema`'s loop (db_admin.py
lines 398-407) on its normal path: the name appended for one schema line,
`none` when the line contributes nothing. On a line that contains `Table:`
followed by no word, Python's `parts[1].split()[0]` raises IndexError
instead; that exception path is modelled by `tableNameOfLineExc` and
`lineRaises` below, and `tableNameOfLineExc_ok` shows this function is the
loop's contribution exactly on the non-raising lines. -/
def tableNameOfLine (line : List Char) : Option (List Char) :=
  if containsSub (chars "Table:") line then
    match afterSepFirst 'T' (chars "able:") line with
    | some rest1 =>
      match pySplitWs (beforeSepFirst 'T' (chars "able:") rest1) with
      | [] => none
      | w :: _ => some (pyStrip w)
    | none => none
  else none

/-- `SmartDBAdminAgent._extract_table_names_from_schema`: the lines that
contain the exact, case-sensitive text `Table:` contribute table names. -/
def extract_table_names_from_schema (schema : List Char) : List (List Char) :=
  (splitLines schema).filterMap tableNameOfLine

/-- The result of `_analyze_intent`: Python's dict with keys `type`,
`explanation` and (for describe_table) `table`; a missing `table` key and a
`None` value are both `none`. -/
structure Intent where
  type : List Char
  explanation : List Char
  table : Option (List Char)
deriving DecidableEq

def kwsListTables : List String := ["show tables", "list tables", "what tables", "all tables"]
def kwsDescribe : List String := ["describe", "table structure", "columns in", "show columns", "schema of"]
def kwsListIndexes : List String := ["show indexes", "list indexes", "what indexes", "all indexes"]
def kwsForeignKeys : List String := ["foreign key", "relationships", "references", "constraints"]
def kwsTableSizes : List String := ["table size", "table sizes", "disk usage", "space used"]
def kwsDatabaseSize : List String := ["database size", "db size", "total size"]
def kwsRowCounts : List String := ["row count", "table rows", "count rows", "how many rows"]
def kwsConnections : List String := ["connections", "active sessions", "who is connected", "connected users"]
def kwsActiveQueries : List String := ["running queries", "active queries", "current queries"]
def kwsStatistics : List String := ["statistics", "stats", "table stats"]
def dataQueryStarts : List String := ["select", "show me", "get", "find", "list all"]
def modificationStarts : List String := ["update", "delete", "insert", "create", "alter", "drop"]

def intentListTables : Intent := ⟨chars "list_tables", chars "List all tables in the database", none⟩
def intentListIndexes : Intent := ⟨chars "list_indexes", chars "List all indexes in the database", none⟩
def intentForeignKeys : Intent := ⟨chars "foreign_keys", chars "Show foreign key relationships", none⟩
def intentTableSizes : Intent := ⟨chars "table_sizes", chars "Show table sizes sorted by disk usage", none⟩
def intentDatabaseSize : Intent := ⟨chars "database_size", chars "Show total database size", none⟩
def intentRowCounts : Intent := ⟨chars "row_counts", chars "Show row counts for all tables", none⟩
def intentConnections : Intent := ⟨chars "connections", chars "Show active database connections", none⟩
def intentActiveQueries : Intent := ⟨chars "active_queries", chars "Show currently running queries", none⟩
def intentStatistics : Intent := ⟨chars "statistics", chars "Show database statistics", none⟩
def intentDataQuery : Intent := ⟨chars "data_query", chars "Retrieve data from database", none⟩
def intentModification : Intent := ⟨chars "modification", chars "Modify database structure or data", none⟩
def intentUnknown : Intent := ⟨chars "unknown", chars "General database query", none⟩

/-- The describe_table intent: the extracted table name (possibly `None`) is
kept, and the explanation embeds it when it is truthy. -/
def intentDescribeTable (table : Option (List Char)) : Intent :=
  match table with
  | some t =>
    if t.isEmpty then ⟨chars "describe_table", chars "Show table structure", some t⟩
    else ⟨chars "describe_table", chars "Show structure of table: " ++ t, some t⟩
  | none => ⟨chars "describe_table", chars "Show table structure", none⟩

/-- The branch cascade of `SmartDBAdminAgent._analyze_intent` (db_admin.py
lines 95-182), applied to the already lower-cased and stripped input. -/
def analyzeIntentCore (ql : List Char) : Intent :=
  if kwAny kwsListTables ql then intentListTables
  else if kwAny kwsDescribe ql then intentDescribeTable (extract_table_name ql)
  else if kwAny kwsListIndexes ql then intentListIndexes
  else if kwAny kwsForeignKeys ql then intentForeignKeys
  else if kwAny kwsTableSizes ql then intentTableSizes
  else if kwAny kwsDatabaseSize ql then intentDatabaseSize
  else if kwAny kwsRowCounts ql then intentRowCounts
  else if kwAny kwsConnections ql then intentConnections
  else if kwAny kwsActiveQueries ql then intentActiveQueries
  else if kwAny kwsStatistics ql then intentStatistics
  else if startsAny dataQueryStarts ql then intentDataQuery
  else if startsAny modificationStarts ql then intentModification
  else intentUnknown

/-- `SmartDBAdminAgent._analyze_intent`: lower-case and strip, then cascade. -/
def analyze_intent (q : List Char) : Intent :=
  analyzeIntentCore (pyStrip (pyLower q))

/-- Whether any of `_analyze_intent`'s twelve guards fires on the
lower-cased, stripped input; `false` means the `unknown` fallback. -/
def matchesSomeIntent (ql : List Char) : Bool :=
  kwAny kwsListTables ql || kwAny kwsDescribe ql || kwAny kwsListIndexes ql ||
  kwAny kwsForeignKeys ql || kwAny kwsTableSizes ql || kwAny kwsDatabaseSize ql ||
  kwAny kwsRowCounts ql || kwAny kwsConnections ql || kwAny kwsActiveQueries ql ||
  kwAny kwsStatistics ql || startsAny dataQueryStarts ql || startsAny modificationStarts ql

/-- The closed enumeration of intent tags. -/
def intentKinds : List (List Char) :=
  [chars "list_tables", chars "describe_table", chars "list_indexes",
   chars "foreign_keys", chars "table_sizes", chars "database_size",
   chars "row_counts", chars "connections", chars "active_queries",
   chars "statistics", chars "data_query", chars "modification", chars "unknown"]

/-- The `list_tables` template of `_generate_sql`. -/
def listTablesSQL : List Char :=
  chars "SELECT \n    schemaname,\n    tablename,\n    tableowner\nFROM pg_tables \nWHERE schemaname = 'public' \nORDER BY tablename;"

/-- The `describe_table` template, with the table name substituted verbatim. -/
def describeTableSQL (t : List Char) : List Char :=
  chars "SELECT \n    column_name,\n    data_type,\n    character_maximum_length,\n    is_nullable,\n    column_default\nFROM information_schema.columns \nWHERE table_schema = 'public' \nAND table_name = '" ++
  t ++
  chars "'\nORDER BY ordinal_position;"

/-- The `list_indexes` template. -/
def listIndexesSQL : List Char :=
  chars "SELECT \n    schemaname,\n    tablename,\n    indexname,\n    indexdef\nFROM pg_indexes \nWHERE schemaname = 'public' \nORDER BY tablename, indexname;"

/-- The `foreign_keys` template. -/
def foreignKeysSQL : List Char :=
  chars "SELECT\n    tc.table_name AS from_table,\n    kcu.column_name AS from_column,\n    ccu.table_name AS to_table,\n    ccu.column_name AS to_column,\n    tc.constraint_name\nFROM information_schema.table_constraints AS tc\nJOIN information_schema.key_column_usage AS kcu\n    ON tc.constraint_name = kcu.constraint_name\n    AND tc.table_schema = kcu.table_schema\nJOIN information_schema.constraint_column_usage AS ccu\n    ON ccu.constraint_name = tc.constraint_name\n    AND ccu.table_schema = tc.table_schema\nWHERE tc.constraint_type = 'FOREIGN KEY'\nAND tc.table_schema = 'public'\nORDER BY tc.table_name, tc.constraint_name;"

/-- The `table_sizes` template. -/
def tableSizesSQL : List Char :=
  chars "SELECT \n    schemaname,\n    tablename,\n    pg_size_pretty(pg_total_relation_size(schemaname||'.'||tablename)) AS total_size,\n    pg_size_pretty(pg_relation_size(schemaname||'.'||tablename)) AS table_size,\n    pg_size_pretty(pg_total_relation_size(schemaname||'.'||tablename) - pg_relation_size(schemaname||'.'||tablename)) AS indexes_size,\n    pg_total_relation_size(schemaname||'.'||tablename) AS bytes\nFROM pg_tables \nWHERE schemaname = 'public' \nORDER BY pg_total_relation_size(schemaname||'.'||tablename) DESC;"

/-- The `database_size` template. -/
def databaseSizeSQL : List Char :=
  chars "SELECT \n    current_database() AS database_name,\n    pg_size_pretty(pg_database_size(current_database())) AS size;"

/-- The `row_counts` template. -/
def rowCountsSQL : List Char :=
  chars "SELECT \n    schemaname,\n    relname AS table_name,\n    n_live_tup AS row_count,\n    n_dead_tup AS dead_rows\nFROM pg_stat_user_tables \nWHERE schemaname = 'public' \nORDER BY n_live_tup DESC;"

/-- The `connections` template. -/
def connectionsSQL : List Char :=
  chars "SELECT \n    datname AS database,\n    usename AS user,\n    application_name,\n    client_addr,\n    state,\n    COUNT(*) AS connection_count\nFROM pg_stat_activity \nWHERE datname = current_database()\nGROUP BY datname, usename, application_name, client_addr, state\nORDER BY connection_count DESC;"

/-- The `active_queries` template. -/
def activeQueriesSQL : List Char :=
  chars "SELECT \n    pid,\n    usename AS user,\n    datname AS database,\n    state,\n    query_start,\n    LEFT(query, 100) AS query_preview\nFROM pg_stat_activity \nWHERE state = 'active'\nAND query NOT LIKE '%pg_stat_activity%'\nORDER BY query_start;"

/-- The `statistics` template (db_admin.py lines 293-306); its column aliases
`inserts`, `updates` and `deletes` are what claim C10 is about. -/
def statisticsSQL : List Char :=
  chars "SELECT \n    schemaname,\n    relname AS table_name,\n    seq_scan AS sequential_scans,\n    seq_tup_read AS rows_read_seq,\n    idx_scan AS index_scans,\n    idx_tup_fetch AS rows_fetched_idx,\n    n_tup_ins AS inserts,\n    n_tup_upd AS updates,\n    n_tup_del AS deletes\nFROM pg_stat_user_tables \nWHERE schemaname = 'public' \nORDER BY relname;"

/-- `SmartDBAdminAgent._construct_select_query` (db_admin.py lines 314-342):
first schema table whose lower-cased name occurs in the lower-cased query,
then `SELECT * FROM`, an optional WHERE-placeholder comment, an optional
`LIMIT 100`, and a semicolon. -/
def construct_select_query (q schema : List Char) : Option (List Char) :=
  let ql := pyLower q
  match (extract_table_names_from_schema schema).find? (fun t => containsSub (pyLower t) ql) with
  | none => none
  | some t =>
    let sql1 := chars "SELECT * FROM " ++ t
    let sql2 :=
      if kwAny ["where", "with", "having"] ql then sql1 ++ chars "\n-- Add WHERE clause as needed"
      else sql1
    let sql3 :=
      if !containsSub (chars "limit") ql && !containsSub (chars "all") ql then sql2 ++ chars "\nLIMIT 100"
      else sql2
    some (sql3 ++ chars ";")

/-- Python `a or b` on an optional string: `None` and the empty string are
falsy (`_generate_sql` line 199). -/
def pyOrOpt (a b : Option (List Char)) : Option (List Char) :=
  match a with
  | some t => if t.isEmpty then b else some t
  | none => b

/-- `SmartDBAdminAgent._generate_sql` (db_admin.py lines 184-312): one fixed
template per recognized intent, a constructed SELECT for `data_query`, and
`None` when nothing applies (also for `describe_table` without a table). -/
def generate_sql (q : List Char) (intent : Intent) (schema : List Char) : Option (List Char) :=
  if intent.type = chars "list_tables" then some listTablesSQL
  else if intent.type = chars "describe_table" then
    match pyOrOpt intent.table (extract_table_name (pyLower q)) with
    | some t => some (describeTableSQL t)
    | none => none
  else if intent.type = chars "list_indexes" then some listIndexesSQL
  else if intent.type = chars "foreign_keys" then some foreignKeysSQL
  else if intent.type = chars "table_sizes" then some tableSizesSQL
  else if intent.type = chars "database_size" then some databaseSizeSQL
  else if intent.type = chars "row_counts" then some rowCountsSQL
  else if intent.type = chars "connections" then some connectionsSQL
  else if intent.type = chars "active_queries" then some activeQueriesSQL
  else if intent.type = chars "statistics" then some statisticsSQL
  else if intent.type = chars "data_query" then construct_select_query q schema
  else none

/-- The result of `_analyze_safety`: Python's dict with keys `level`,
`recommendation` and `warnings`. -/
structure SafetyVerdict where
  level : List Char
  recommendation : List Char
  warnings : Option (List Char)
deriving DecidableEq

/- The recommendation strings reproduce the source file's literal characters
(the emoji in db_admin.py are stored double-encoded there; the \u escapes
below are exactly the code points the Python literals hold). -/

def dangerousRec : List Char :=
  chars "ðŸ›‘ DANGEROUS: This will permanently delete data or structure. Triple-check before executing!"

def dangerousWarn : List Char :=
  chars "This operation cannot be undone. Make sure you have a backup."

def modifyRec : List Char :=
  chars "âš ï¸ CAUTION: This will modify data or structure. Review carefully before executing."

def modifyWarn : List Char :=
  chars "Ensure you have reviewed the impact of this change."

def safeRec : List Char :=
  chars "âœ… SAFE: Read-only query. Safe to execute."

def unknownRec : List Char :=
  chars "â“ UNKNOWN: Unable to determine query type. Proceed with caution."

def unknownWarn : List Char :=
  chars "Review the query carefully before executing."

/-- `SmartDBAdminAgent._analyze_safety` (db_admin.py lines 344-376): upper-case
and strip the SQL text, then dangerous-keyword containment, then
modify-keyword containment, then the safe prefix test, else unknown. -/
def analyze_safety (sql : List Char) : SafetyVerdict :=
  let sqlUpper := pyStrip (pyUpper sql)
  if kwAny ["DROP", "TRUNCATE"] sqlUpper then
    ⟨chars "dangerous", dangerousRec, some dangerousWarn⟩
  else if kwAny ["DELETE", "UPDATE", "INSERT", "ALTER", "CREATE"] sqlUpper then
    ⟨chars "modify", modifyRec, some modifyWarn⟩
  else if startsAny ["SELECT", "SHOW", "WITH"] sqlUpper then
    ⟨chars "safe", safeRec, none⟩
  else
    ⟨chars "unknown", unknownRec, some unknownWarn⟩

/-- `SmartDBAdminAgent._get_suggestions` (db_admin.py lines 409-420): a fixed
list, independent of the failed query. -/
def get_suggestions (q : List Char) : List (List Char) :=
  [chars "Try: 'Show all tables'",
   chars "Try: 'Show table sizes'",
   chars "Try: 'List all indexes'",
   chars "Try: 'Describe table actor'",
   chars "Try: 'Show database size'",
   chars "Try: 'Show active connections'",
   chars "Try: 'Show row counts'",
   chars "Try: 'Show foreign keys'"]

/-- The eight example queries of the spec's fixed suggestions list. -/
def suggestionPhrases : List (List Char) :=
  [chars "Show all tables", chars "Show table sizes", chars "List all indexes",
   chars "Describe table actor", chars "Show database size",
   chars "Show active connections", chars "Show row counts", chars "Show foreign keys"]

def cannotGenerateMsg : List Char :=
  chars "Could not generate SQL query. Please rephrase your request."

/-- The dict `process_query` returns; a key the Python dict does not carry
is `none`. -/
structure ProcessResult where
  success : Bool
  sql : Option (List Char) := none
  explanation : Option (List Char) := none
  safety_level : Option (List Char) := none
  recommendation : Option (List Char) := none
  warnings : Option (List Char) := none
  intent_type : Option (List Char) := none
  error : Option (List Char) := none
  suggestions : Option (List (List Char)) := none
deriving DecidableEq

/-- `SmartDBAdminAgent.process_query` (db_admin.py lines 34-80), parameterized
by the schema context string that `_load_schema_context` would return (that
load is the only I/O of the method). -/
def process_query (q schema : List Char) : ProcessResult :=
  let intent := analyze_intent q
  match generate_sql q intent schema with
  | none =>
    { success := false, error := some cannotGenerateMsg,
      suggestions := some (get_suggestions q) }
  | some sql =>
    let safety := analyze_safety sql
    { success := true, sql := some sql, explanation := some intent.explanation,
      safety_level := some safety.level, recommendation := some safety.recommendation,
      warnings := safety.warnings, intent_type := some intent.type }

/-- One column of `get_table_details`'s answer, as `extract_schema_compact`
consumes it: `dtype` stands for `format_data_type`'s output and `references`
for the `table.column` target of a foreign key. -/
structure ColumnSpec where
  name : List Char
  dtype : List Char
  isPrimaryKey : Bool
  isForeignKey : Bool
  references : List Char
deriving DecidableEq

structure TableSpec where
  name : List Char
  columns : List ColumnSpec
deriving DecidableEq

/-- The compact column string `name:dtype [markers]` of
`SchemaExtractor.extract_schema_compact` (schema_extractor.py lines 419-456). -/
def compactColStr (col : ColumnSpec) : List Char :=
  let markers : List (List Char) :=
    (if col.isPrimaryKey then [chars "PK"] else []) ++
    (if col.isForeignKey then [chars "FK→" ++ beforeSepFirst '.' [] col.references] else [])
  let markerStr :=
    if markers.isEmpty then [] else chars " [" ++ List.intercalate (chars ",") markers ++ chars "]"
  col.name ++ chars ":" ++ col.dtype ++ markerStr

/-- `SchemaExtractor.extract_schema_compact`, parameterized by the database
name and the table details the database would answer: a header line, then
one `  • table: columns` line per table. -/
def extract_schema_compact (dbName : List Char) (tables : List TableSpec) : List Char :=
  if tables.isEmpty then
    chars "Database '" ++ dbName ++ chars "': No tables found."
  else
    List.intercalate (chars "\n")
      ((chars "Database '" ++ dbName ++ chars "' - " ++ chars (Nat.repr tables.length) ++ chars " tables:") ::
       tables.map (fun t =>
         chars "  • " ++ t.name ++ chars ": " ++
         List.intercalate (chars ", ") (t.columns.map compactColStr)))

/-- The body of `/query/execute`'s request (backend/models/schemas.py,
SQLExecutionRequest): `confirm` defaults to false when the caller omits it. -/
structure SQLExecutionRequest where
  db_name : List Char
  sql : List Char
  confirm : Bool
deriving DecidableEq

/-- The body of `/admin/smart/execute`'s request (backend/main.py,
SmartAdminExecuteRequest): it has no confirmation field at all. -/
structure SmartAdminExecuteRequest where
  db_name : List Char
  sql : List Char
deriving DecidableEq

/-- What an execution endpoint does with the statement: refuse before
reaching the database, or delegate it to the database collaborator
(`SQLExecutorAgent.execute` / `PostgreSQLHandler.execute`). -/
inductive ExecOutcome where
  | refused (status : Nat) (detail : List Char)
  | delegated (sql : List Char)
deriving DecidableEq

def confirmDetail : List Char := chars "Execution requires confirmation"

/-- `/query/execute` (backend/main.py lines 149-170): raise 400 when
`request.confirm` is false, otherwise delegate `request.sql`. -/
def execute_sql_endpoint (req : SQLExecutionRequest) : ExecOutcome :=
  if !req.confirm then ExecOutcome.refused 400 confirmDetail
  else ExecOutcome.delegated req.sql

/-- `/admin/smart/execute` (backend/main.py lines 264-318): delegate
`request.sql` to `SmartDBAdminAgent.execute_sql` unconditionally (that method,
db_admin.py lines 82-93, passes it straight to `PostgreSQLHandler.execute`). -/
def smart_admin_execute_endpoint (req : SmartAdminExecuteRequest) : ExecOutcome :=
  ExecOutcome.delegated req.sql

/-- A compact-extractor input whose table name contains `Table` (a legal
quoted identifier in Postgres); used by claim C4. -/
def mixedCaseSchema : List Char :=
  extract_schema_compact (chars "mydb")
    [⟨chars "userTable", [⟨chars "id", chars "INT", false, false, []⟩]⟩]

/-- A typical lower-case-identifier input of the compact extractor. -/
def demoTables : List TableSpec :=
  [⟨chars "customers",
    [⟨chars "id", chars "INT", true, false, []⟩,
     ⟨chars "name", chars "VARCHAR(50)", false, false, []⟩]⟩,
   ⟨chars "orders",
    [⟨chars "id", chars "INT", true, false, []⟩,
     ⟨chars "cust_id", chars "INT", false, true, chars "customers.id"⟩]⟩]

def demoCompactSchema : List Char :=
  extract_schema_compact (chars "dvdrental") demoTables

/-- A schema summary that the table-name lookup does recognize: its lines
carry the `Table:` tag and list the tables `customers` and `orders`. -/
def tagSchema : List Char := chars "Table: customers\nTable: orders"

/-- One iteration of `_extract_table_names_from_schema`'s loop with its
exception behavior: `Except.error ()` is Python's IndexError from
`parts[1].split()[0]` when the text between the first `Table:` and the next
occurrence (or the line's end) holds no whitespace-separated word;
`Except.ok none` a line that contributes nothing; `Except.ok (some w)` the
appended name. -/
def tableNameOfLineExc (line : List Char) : Except Unit (Option (List Char)) :=
  if containsSub (chars "Table:") line then
    match afterSepFirst 'T' (chars "able:") line with
    | some rest1 =>
      match pySplitWs (beforeSepFirst 'T' (chars "able:") rest1) with
      | [] => Except.error ()
      | w :: _ => Except.ok (some (pyStrip w))
    | none => Except.ok none
  else Except.ok none

/-- Whether one schema line makes the extraction loop raise IndexError. -/
def lineRaises (line : List Char) : Bool :=
  match tableNameOfLineExc line with
  | Except.error _ => true
  | Except.ok _ => false

/-- The loop of `_extract_table_names_from_schema` over the schema's lines
with Python's exception behavior: the first IndexError aborts the whole
call, otherwise the names are collected in line order. -/
def extract_table_names_exc_loop : List (List Char) → Except Unit (List (List Char))
  | [] => Except.ok []
  | line :: rest =>
    match tableNameOfLineExc line with
    | Except.error e => Except.error e
    | Except.ok none => extract_table_names_exc_loop rest
    | Except.ok (some w) =>
      match extract_table_names_exc_loop rest with
      | Except.error e => Except.error e
      | Except.ok ts => Except.ok (w :: ts)

/-- `SmartDBAdminAgent._extract_table_names_from_schema` as the fallible
function it is: it raises exactly when some line contains `Table:` with no
word after the tag, and otherwise returns `extract_table_names_from_schema`
(lemmas `extract_exc_error_iff` and `extract_exc_ok`). -/
def extract_table_names_exc (schema : List Char) : Except Unit (List (List Char)) :=
  extract_table_names_exc_loop (splitLines schema)

/-- Whether `_extract_table_names_from_schema` raises on this schema. -/
def extract_table_names_raises (schema : List Char) : Bool :=
  (splitLines schema).any lineRaises

/-- `SmartDBAdminAgent._construct_select_query` with the extraction's
IndexError propagated: the rest of the method is pure. On non-raising
schemas this is `Except.ok` of `construct_select_query`
(lemma `construct_exc_ok`). -/
def construct_select_query_exc (q schema : List Char) : Except Unit (Option (List Char)) :=
  let ql := pyLower q
  match extract_table_names_exc schema with
  | Except.error e => Except.error e
  | Except.ok tables =>
    Except.ok
      (match tables.find? (fun t => containsSub (pyLower t) ql) with
       | none => none
       | some t =>
         let sql1 := chars "SELECT * FROM " ++ t
         let sql2 :=
           if kwAny ["where", "with", "having"] ql then
             sql1 ++ chars "\n-- Add WHERE clause as needed"
           else sql1
         let sql3 :=
           if !containsSub (chars "limit") ql && !containsSub (chars "all") ql then
             sql2 ++ chars "\nLIMIT 100"
           else sql2
         some (sql3 ++ chars ";"))

/-- `SmartDBAdminAgent._generate_sql` with the data_query branch's exception
propagated; only `_construct_select_query` touches the schema, so every
other branch is the pure result wrapped in `Except.ok`. -/
def generate_sql_exc (q : List Char) (intent : Intent) (schema : List Char) :
    Except Unit (Option (List Char)) :=
  if intent.type = chars "list_tables" then Except.ok (some listTablesSQL)
  else if intent.type = chars "describe_table" then
    Except.ok
      (match pyOrOpt intent.table (extract_table_name (pyLower q)) with
       | some t => some (describeTableSQL t)
       | none => none)
  else if intent.type = chars "list_indexes" then Except.ok (some listIndexesSQL)
  else if intent.type = chars "foreign_keys" then Except.ok (some foreignKeysSQL)
  else if intent.type = chars "table_sizes" then Except.ok (some tableSizesSQL)
  else if intent.type = chars "database_size" then Except.ok (some databaseSizeSQL)
  else if intent.type = chars "row_counts" then Except.ok (some rowCountsSQL)
  else if intent.type = chars "connections" then Except.ok (some connectionsSQL)
  else if intent.type = chars "active_queries" then Except.ok (some activeQueriesSQL)
  else if intent.type = chars "statistics" then Except.ok (some statisticsSQL)
  else if intent.type = chars "data_query" then construct_select_query_exc q schema
  else Except.ok none

/-- A compact-extractor output on which table-name extraction raises: a
zero-column table whose (legal, quoted-identifier) name ends in `Table`
yields the line `  • auditTable: `, whose text after `Table:` has no word,
so `parts[1].split()[0]` raises IndexError. -/
def crashSchema : List Char :=
  extract_schema_compact (chars "mydb") [⟨chars "auditTable", []⟩]

/- ===================== Helper lemmas ===================== -/

theorem containsSub_infix_iff (n l : List Char) : containsSub n l = true ↔ n <:+: l := by
  induction l with
  | nil =>
    simp [containsSub, List.isEmpty_iff, List.infix_nil]
  | cons a t ih =>
    rw [containsSub, Bool.or_eq_true, List.isPrefixOf_iff_prefix, ih, List.infix_cons_iff]

theorem infix_dropWhile_of_not (p : Char → Bool) (n : List Char) (hne : n ≠ [])
    (hmem : ∀ c ∈ n, p c = false) :
    ∀ l : List Char, n <:+: l → n <:+: l.dropWhile p := by
  intro l
  induction l with
  | nil =>
    intro h
    rw [List.infix_nil] at h
    exact absurd h hne
  | cons a t ih =>
    intro h
    by_cases hp : p a = true
    · rw [List.dropWhile_cons, if_pos hp]
      rcases List.infix_cons_iff.mp h with hpre | hinf
      · rcases n with _ | ⟨n0, n'⟩
        · exact absurd rfl hne
        · rcases List.cons_prefix_cons.mp hpre with ⟨rfl, _⟩
          rw [hmem n0 (List.mem_cons_self _ _)] at hp
          exact absurd hp (by simp)
      · exact ih hinf
    · rw [List.dropWhile_cons, if_neg hp]
      exact h

theorem containsSub_pyStrip (n l : List Char) (hne : n ≠ [])
    (hmem : ∀ c ∈ n, isSpaceChar c = false) (h : containsSub n l = true) :
    containsSub n (pyStrip l) = true := by
  rw [containsSub_infix_iff] at h ⊢
  unfold pyStrip
  have h1 : n <:+: l.dropWhile isSpaceChar :=
    infix_dropWhile_of_not isSpaceChar n hne hmem l h
  have h2 : n.reverse <:+: (l.dropWhile isSpaceChar).reverse :=
    List.reverse_infix.mpr h1
  have hne' : n.reverse ≠ [] := by simpa using hne
  have hmem' : ∀ c ∈ n.reverse, isSpaceChar c = false :=
    fun c hc => hmem c (List.mem_reverse.mp hc)
  have h3 := infix_dropWhile_of_not isSpaceChar n.reverse hne' hmem' _ h2
  have h4 : n.reverse.reverse <:+:
      ((l.dropWhile isSpaceChar).reverse.dropWhile isSpaceChar).reverse :=
    List.reverse_infix.mpr h3
  simpa using h4

theorem pyStrip_infix_self (l : List Char) : pyStrip l <:+: l := by
  unfold pyStrip
  have hA : l.dropWhile isSpaceChar <:+ l := List.dropWhile_suffix isSpaceChar
  have hX : (l.dropWhile isSpaceChar).reverse.dropWhile isSpaceChar <:+
      (l.dropWhile isSpaceChar).reverse := List.dropWhile_suffix isSpaceChar
  have hB : ((l.dropWhile isSpaceChar).reverse.dropWhile isSpaceChar).reverse <+:
      l.dropWhile isSpaceChar := by
    rw [← List.reverse_suffix]
    simpa using hX
  exact hB.isInfix.trans hA.isInfix

theorem containsSub_of_pyStrip (n l : List Char) (h : containsSub n (pyStrip l) = true) :
    containsSub n l = true := by
  rw [containsSub_infix_iff] at h ⊢
  exact h.trans (pyStrip_infix_self l)

theorem scanCaptures_not_stop (cs : List (Option (List Char))) (w : List Char)
    (h : scanCaptures cs = some w) : stopWords.contains w = false := by
  induction cs with
  | nil => simp [scanCaptures] at h
  | cons c rest ih =>
    rcases c with _ | v
    · exact ih (by simpa [scanCaptures] using h)
    · rw [scanCaptures] at h
      by_cases hv : stopWords.contains v = true
      · rw [if_pos hv] at h
        exact ih h
      · rw [if_neg hv] at h
        rw [← Option.some.inj h]
        exact Bool.not_eq_true _ ▸ hv

theorem intentDescribeTable_type (tb : Option (List Char)) :
    (intentDescribeTable tb).type = chars "describe_table" := by
  unfold intentDescribeTable
  split
  · split <;> rfl
  · rfl

set_option maxHeartbeats 1000000 in
theorem analyzeIntentCore_cases (ql : List Char) :
    analyzeIntentCore ql = intentListTables ∨
    (analyzeIntentCore ql).type = chars "describe_table" ∨
    analyzeIntentCore ql = intentListIndexes ∨
    analyzeIntentCore ql = intentForeignKeys ∨
    analyzeIntentCore ql = intentTableSizes ∨
    analyzeIntentCore ql = intentDatabaseSize ∨
    analyzeIntentCore ql = intentRowCounts ∨
    analyzeIntentCore ql = intentConnections ∨
    analyzeIntentCore ql = intentActiveQueries ∨
    analyzeIntentCore ql = intentStatistics ∨
    analyzeIntentCore ql = intentDataQuery ∨
    analyzeIntentCore ql = intentModification ∨
    analyzeIntentCore ql = intentUnknown := by
  unfold analyzeIntentCore
  repeat' split
  · exact Or.inl rfl
  · exact Or.inr (Or.inl (intentDescribeTable_type _))
  · exact Or.inr (Or.inr (Or.inl rfl))
  · exact Or.inr (Or.inr (Or.inr (Or.inl rfl)))
  · exact Or.inr (Or.inr (Or.inr (Or.inr (Or.inl rfl))))
  · exact Or.inr (Or.inr (Or.inr (Or.inr (Or.inr (Or.inl rfl)))))
  · exact Or.inr (Or.inr (Or.inr (Or.inr (Or.inr (Or.inr (Or.inl rfl))))))
  · exact Or.inr (Or.inr (Or.inr (Or.inr (Or.inr (Or.inr (Or.inr (Or.inl rfl)))))))
  · exact Or.inr (Or.inr (Or.inr (Or.inr (Or.inr (Or.inr (Or.inr (Or.inr (Or.inl rfl))))))))
  · exact Or.inr (Or.inr (Or.inr (Or.inr (Or.inr (Or.inr (Or.inr (Or.inr (Or.inr (Or.inl rfl)))))))))
  · exact Or.inr (Or.inr (Or.inr (Or.inr (Or.inr (Or.inr (Or.inr (Or.inr (Or.inr (Or.inr (Or.inl rfl))))))))))
  · exact Or.inr (Or.inr (Or.inr (Or.inr (Or.inr (Or.inr (Or.inr (Or.inr (Or.inr (Or.inr (Or.inr (Or.inl rfl)))))))))))
  · exact Or.inr (Or.inr (Or.inr (Or.inr (Or.inr (Or.inr (Or.inr (Or.inr (Or.inr (Or.inr (Or.inr (Or.inr rfl)))))))))))

theorem analyzeIntentCore_type_mem (ql : List Char) :
    (analyzeIntentCore ql).type ∈ intentKinds := by
  rcases analyzeIntentCore_cases ql with h|h|h|h|h|h|h|h|h|h|h|h|h <;> rw [h] <;> decide

theorem analyzeIntentCore_statistics_record (ql : List Char)
    (h : (analyzeIntentCore ql).type = chars "statistics") :
    analyzeIntentCore ql = intentStatistics := by
  rcases analyzeIntentCore_cases ql with h'|h'|h'|h'|h'|h'|h'|h'|h'|h'|h'|h'|h' <;>
    first
    | exact h'
    | (rw [h'] at h; exact absurd h (by decide))

theorem tableNameOfLineExc_ok (line : List Char) (h : lineRaises line = false) :
    tableNameOfLineExc line = Except.ok (tableNameOfLine line) := by
  unfold lineRaises at h
  rcases hexc : tableNameOfLineExc line with e | v
  · rw [hexc] at h
    cases h
  · congr 1
    unfold tableNameOfLineExc at hexc
    unfold tableNameOfLine
    by_cases hc : containsSub (chars "Table:") line = true
    · rw [if_pos hc] at hexc
      rw [if_pos hc]
      rcases ha : afterSepFirst 'T' (chars "able:") line with _ | rest1
      · simp only [ha] at hexc
        simp at hexc
        subst hexc
        rfl
      · simp only [ha] at hexc
        rcases hw : pySplitWs (beforeSepFirst 'T' (chars "able:") rest1) with _ | ⟨w, ws⟩
        · simp only [hw] at hexc
          cases hexc
        · simp only [hw] at hexc
          simp at hexc
          subst hexc
          simp [hw]
    · rw [if_neg hc] at hexc
      rw [if_neg hc]
      simp at hexc
      subst hexc
      rfl

theorem extract_loop_error_iff (ls : List (List Char)) :
    extract_table_names_exc_loop ls = Except.error () ↔ ls.any lineRaises = true := by
  induction ls with
  | nil =>
    constructor
    · intro h; cases h
    · intro h; simp at h
  | cons line rest ih =>
    simp only [extract_table_names_exc_loop, List.any_cons, Bool.or_eq_true]
    rcases hexc : tableNameOfLineExc line with e | v
    · cases e
      simp [lineRaises, hexc]
    · rcases v with _ | w
      · simp only [lineRaises, hexc]
        rw [ih]
        simp
      · rcases hloop : extract_table_names_exc_loop rest with e' | ts
        · cases e'
          simp [lineRaises, hexc, ih.mp hloop]
        · simp only [lineRaises, hexc]
          constructor
          · intro hcon; cases hcon
          · rintro (hfalse | hany)
            · cases hfalse
            · rw [ih.mpr hany] at hloop
              cases hloop

theorem extract_loop_ok (ls : List (List Char)) (h : ls.any lineRaises = false) :
    extract_table_names_exc_loop ls = Except.ok (ls.filterMap tableNameOfLine) := by
  induction ls with
  | nil => rfl
  | cons line rest ih =>
    simp only [List.any_cons, Bool.or_eq_false_iff] at h
    obtain ⟨h1, h2⟩ := h
    simp only [extract_table_names_exc_loop, List.filterMap_cons]
    rw [tableNameOfLineExc_ok line h1, ih h2]
    rcases hv : tableNameOfLine line with _ | w <;> simp

theorem extract_exc_error_iff (schema : List Char) :
    extract_table_names_exc schema = Except.error () ↔
    extract_table_names_raises schema = true :=
  extract_loop_error_iff (splitLines schema)

theorem extract_exc_ok (schema : List Char)
    (h : extract_table_names_raises schema = false) :
    extract_table_names_exc schema = Except.ok (extract_table_names_from_schema schema) :=
  extract_loop_ok (splitLines schema) h

theorem construct_exc_error_iff (q schema : List Char) :
    construct_select_query_exc q schema = Except.error () ↔
    extract_table_names_raises schema = true := by
  simp only [construct_select_query_exc]
  rcases hexc : extract_table_names_exc schema with e | ts
  · cases e
    exact ⟨fun _ => (extract_exc_error_iff schema).mp hexc, fun _ => rfl⟩
  · constructor
    · intro hcon; cases hcon
    · intro hr
      rw [(extract_exc_error_iff schema).mpr hr] at hexc
      cases hexc

theorem construct_exc_ok (q schema : List Char)
    (h : extract_table_names_raises schema = false) :
    construct_select_query_exc q schema = Except.ok (construct_select_query q schema) := by
  simp only [construct_select_query_exc, construct_select_query]
  rw [extract_exc_ok schema h]

theorem construct_exc_raises_false (q schema : List Char) (v : Option (List Char))
    (h : construct_select_query_exc q schema = Except.ok v) :
    extract_table_names_raises schema = false := by
  by_cases hb : extract_table_names_raises schema = true
  · rw [(construct_exc_error_iff q schema).mpr hb] at h
    cases h
  · simpa using hb

/- ===================== Claim theorems ===================== -/

/-- C1 counterexample: the smart-admin execution endpoint delegates the
statement to the database collaborator although its request carries no
confirmation flag at all (SmartAdminExecuteRequest has no such field), so
the execution step does not refuse unconfirmed SQL on every path. -/
theorem C1_counterexample :
    smart_admin_execute_endpoint ⟨chars "dvdrental", chars "DROP TABLE actor;"⟩ =
      ExecOutcome.delegated (chars "DROP TABLE actor;") := rfl

/-- C1 amended: the `/query/execute` endpoint delegates the statement exactly
when the caller passes the explicit confirmation flag and refuses with
HTTP 400 exactly when it does not, while the `/admin/smart/execute` endpoint
delegates every request unconditionally (its confirmation step lives in the
UI, outside this code). -/
theorem C1_execution_gate (req : SQLExecutionRequest) (sreq : SmartAdminExecuteRequest) :
    (execute_sql_endpoint req = ExecOutcome.delegated req.sql ↔ req.confirm = true) ∧
    (execute_sql_endpoint req = ExecOutcome.refused 400 confirmDetail ↔ req.confirm = false) ∧
    smart_admin_execute_endpoint sreq = ExecOutcome.delegated sreq.sql := by
  refine ⟨?_, ?_, rfl⟩ <;> cases hc : req.confirm <;> simp [execute_sql_endpoint, hc]

/-- C2: the safety classifier checks dangerous-keyword containment before the
modify-keyword containment and the safe-prefix test, so a statement that
starts with SELECT but contains the substring DROP (in any case) is
classified dangerous, not safe. -/
theorem C2_select_with_drop_is_dangerous (sql : List Char)
    (_hsel : (chars "SELECT").isPrefixOf (pyStrip (pyUpper sql)) = true)
    (hdrop : containsSub (chars "DROP") (pyUpper sql) = true) :
    (analyze_safety sql).level = chars "dangerous" ∧
    (analyze_safety sql).level ≠ chars "safe" := by
  have h1 : containsSub (chars "DROP") (pyStrip (pyUpper sql)) = true :=
    containsSub_pyStrip (chars "DROP") (pyUpper sql) (by decide) (by decide) hdrop
  have hk : kwAny ["DROP", "TRUNCATE"] (pyStrip (pyUpper sql)) = true := by
    unfold kwAny
    simp only [List.any_cons, List.any_nil, Bool.or_eq_true]
    exact Or.inl h1
  have hd : (analyze_safety sql).level = chars "dangerous" := by
    simp [analyze_safety, hk]
  exact ⟨hd, by rw [hd]; decide⟩

/-- C2 witness: `select drop from t` starts with SELECT, contains DROP, and
is classified dangerous. -/
theorem C2_witness :
    (analyze_safety (chars "select drop from t")).level = chars "dangerous" ∧
    (analyze_safety (chars "select drop from t")).level ≠ chars "safe" :=
  C2_select_with_drop_is_dangerous (chars "select drop from t") (by decide) (by decide)

/-- C3 counterexample: `SELECT * FROM raindrops;` contains DROP only as a
fragment of the longer word `raindrops`, yet the classifier marks it
dangerous — the check is substring containment, not whole-keyword matching. -/
theorem C3_counterexample :
    (analyze_safety (chars "SELECT * FROM raindrops;")).level = chars "dangerous" := by
  decide

/-- C3 amended: the tier is `dangerous` exactly when the upper-cased SQL text
contains DROP or TRUNCATE as a substring (whole keyword or not), and a
dangerous verdict always carries the irreversibility recommendation and
warning. -/
theorem C3_dangerous_iff_contains (sql : List Char) :
    ((analyze_safety sql).level = chars "dangerous" ↔
      (containsSub (chars "DROP") (pyUpper sql) = true ∨
       containsSub (chars "TRUNCATE") (pyUpper sql) = true)) ∧
    ((analyze_safety sql).level = chars "dangerous" →
      (analyze_safety sql).recommendation = dangerousRec ∧
      (analyze_safety sql).warnings = some dangerousWarn) := by
  by_cases hk : kwAny ["DROP", "TRUNCATE"] (pyStrip (pyUpper sql)) = true
  · have hd : analyze_safety sql = ⟨chars "dangerous", dangerousRec, some dangerousWarn⟩ := by
      simp [analyze_safety, hk]
    have hcont : containsSub (chars "DROP") (pyStrip (pyUpper sql)) = true ∨
        containsSub (chars "TRUNCATE") (pyStrip (pyUpper sql)) = true := by
      unfold kwAny at hk
      rcases List.any_eq_true.mp hk with ⟨kw, hmem, hc⟩
      rcases List.mem_cons.mp hmem with rfl | hmem2
      · exact Or.inl hc
      · rcases List.mem_cons.mp hmem2 with rfl | h3
        · exact Or.inr hc
        · cases h3
    refine ⟨⟨fun _ => ?_, fun _ => by rw [hd]⟩, fun _ => by rw [hd]; exact ⟨rfl, rfl⟩⟩
    rcases hcont with h | h
    · exact Or.inl (containsSub_of_pyStrip _ _ h)
    · exact Or.inr (containsSub_of_pyStrip _ _ h)
  · have hkf : kwAny ["DROP", "TRUNCATE"] (pyStrip (pyUpper sql)) = false := by
      simpa using hk
    have hne : (analyze_safety sql).level ≠ chars "dangerous" := by
      unfold analyze_safety
      simp only [hkf, Bool.false_eq_true, if_false]
      split
      · decide
      · split
        · decide
        · decide
    refine ⟨⟨fun h => absurd h hne, fun h => ?_⟩, fun h => absurd h hne⟩
    exfalso
    rcases h with h | h
    · have := containsSub_pyStrip (chars "DROP") (pyUpper sql) (by decide) (by decide) h
      have : kwAny ["DROP", "TRUNCATE"] (pyStrip (pyUpper sql)) = true := by
        unfold kwAny
        simp only [List.any_cons, List.any_nil, Bool.or_eq_true]
        exact Or.inl this
      rw [this] at hkf
      cases hkf
    · have := containsSub_pyStrip (chars "TRUNCATE") (pyUpper sql) (by decide) (by decide) h
      have : kwAny ["DROP", "TRUNCATE"] (pyStrip (pyUpper sql)) = true := by
        unfold kwAny
        simp only [List.any_cons, List.any_nil, Bool.or_eq_true]
        exact Or.inr (Or.inl this)
      rw [this] at hkf
      cases hkf

/-- C4 counterexample: the compact extractor's own output for a database with
the (legal, quoted-identifier) table name `userTable` has a line containing
the text `Table:`, so the lookup returns a non-empty — and garbled — table
list, and a data_query over that schema even succeeds. -/
theorem C4_counterexample :
    extract_table_names_from_schema mixedCaseSchema = [chars "id:INT"] ∧
    (analyze_intent (chars "get id:int")).type = chars "data_query" ∧
    (process_query (chars "get id:int") mixedCaseSchema).success = true ∧
    (process_query (chars "get id:int") mixedCaseSchema).sql =
      some (chars "SELECT * FROM id:INT\nLIMIT 100;") := by
  refine ⟨by decide, by decide, by decide, by decide⟩

/-- C4 amended: for every schema string none of whose lines contains the
case-sensitive text `Table:` — which is what the extractors produce whenever
the identifiers involved are ordinary lower-case names, Postgres's default
folding — the lookup returns the empty list, and every input classified
data_query yields success:false with the fixed suggestions. -/
theorem C4_no_tag_no_tables (schema : List Char)
    (h : (splitLines schema).all (fun line => !containsSub (chars "Table:") line) = true) :
    extract_table_names_from_schema schema = [] ∧
    ∀ q : List Char, (analyze_intent q).type = chars "data_query" →
      process_query q schema =
        { success := false, error := some cannotGenerateMsg,
          suggestions := some (get_suggestions q) } := by
  have hempty : extract_table_names_from_schema schema = [] := by
    unfold extract_table_names_from_schema
    rw [List.filterMap_eq_nil_iff]
    intro line hline
    have hl := List.all_eq_true.mp h line hline
    have hl' : containsSub (chars "Table:") line = false := by
      simpa using hl
    unfold tableNameOfLine
    rw [hl']
    simp
  refine ⟨hempty, fun q hq => ?_⟩
  have hcs : construct_select_query q schema = none := by
    unfold construct_select_query
    rw [hempty]
    rfl
  have hgen : generate_sql q (analyze_intent q) schema = none := by
    unfold generate_sql
    rw [hq]
    exact hcs
  simp only [process_query]
  rw [hgen]

/-- C4 witness for the amended claim: the compact extractor's output on an
ordinary lower-case schema has no `Table:` line, the lookup over it is
empty, and `show me customers` (a data_query) fails with suggestions. -/
theorem C4_witness :
    ((splitLines demoCompactSchema).all (fun line => !containsSub (chars "Table:") line) = true) ∧
    (analyze_intent (chars "show me customers")).type = chars "data_query" ∧
    extract_table_names_from_schema demoCompactSchema = [] ∧
    process_query (chars "show me customers") demoCompactSchema =
      { success := false, error := some cannotGenerateMsg,
        suggestions := some (get_suggestions (chars "show me customers")) } :=
  ⟨by decide, by decide,
   (C4_no_tag_no_tables demoCompactSchema (by decide)).1,
   (C4_no_tag_no_tables demoCompactSchema (by decide)).2 (chars "show me customers") (by decide)⟩

/-- C5: over a schema listing the tables customers and orders, synthesis on
`show me customers` selects the first listed table occurring in the
lower-cased input and returns `SELECT * FROM customers` ending in
`LIMIT 100;`; for any input containing `customers` but neither `limit` nor
`all`, the output keeps that shape; and when no listed table occurs in the
input, synthesis returns none. -/
theorem C5_data_query_synthesis :
    extract_table_names_from_schema tagSchema = [chars "customers", chars "orders"] ∧
    construct_select_query (chars "show me customers") tagSchema =
      some (chars "SELECT * FROM customers\nLIMIT 100;") ∧
    (∀ q : List Char,
      containsSub (chars "customers") (pyLower q) = true →
      containsSub (chars "limit") (pyLower q) = false →
      containsSub (chars "all") (pyLower q) = false →
      ∃ s, construct_select_query q tagSchema = some s ∧
        (chars "SELECT * FROM customers").isPrefixOf s = true ∧
        (chars "LIMIT 100;").isSuffixOf s = true) ∧
    (∀ q : List Char,
      (extract_table_names_from_schema tagSchema).all
        (fun t => !containsSub (pyLower t) (pyLower q)) = true →
      construct_select_query q tagSchema = none) := by
  have htab : extract_table_names_from_schema tagSchema = [chars "customers", chars "orders"] := by
    decide
  refine ⟨htab, by decide, ?_, ?_⟩
  · intro q h1 h2 h3
    simp only [construct_select_query]
    rw [htab]
    have hfind : List.find? (fun t => containsSub (pyLower t) (pyLower q))
        [chars "customers", chars "orders"] = some (chars "customers") := by
      rw [List.find?_cons_of_pos]
      exact h1
    rw [hfind]
    simp only [h2, h3]
    by_cases hw : kwAny ["where", "with", "having"] (pyLower q) = true
    · rw [if_pos hw]
      exact ⟨_, rfl, by decide, by decide⟩
    · rw [if_neg hw]
      exact ⟨_, rfl, by decide, by decide⟩
  · intro q h
    simp only [construct_select_query]
    rw [htab]
    rw [htab] at h
    have hfind : List.find? (fun t => containsSub (pyLower t) (pyLower q))
        [chars "customers", chars "orders"] = none := by
      rw [List.find?_eq_none]
      intro t ht
      have := List.all_eq_true.mp h t ht
      simpa using this
    rw [hfind]

/-- C5 witness: the general parts applied at concrete inputs. -/
theorem C5_witness :
    (∃ s, construct_select_query (chars "Show me CUSTOMERS please") tagSchema = some s ∧
      (chars "SELECT * FROM customers").isPrefixOf s = true ∧
      (chars "LIMIT 100;").isSuffixOf s = true) ∧
    construct_select_query (chars "show me everything") tagSchema = none :=
  ⟨C5_data_query_synthesis.2.2.1 (chars "Show me CUSTOMERS please")
      (by decide) (by decide) (by decide),
   C5_data_query_synthesis.2.2.2 (chars "show me everything") (by decide)⟩

/-- C6: intent classification is a total function — it is defined for every
input string and returns exactly one Intent, whose tag always lies in the
closed enumeration; and an input on which no keyword set and no
data_query/modification prefix fires is classified `unknown`. -/
theorem C6_classification_total (q : List Char) :
    (analyze_intent q).type ∈ intentKinds ∧
    (matchesSomeIntent (pyStrip (pyLower q)) = false →
      analyze_intent q = intentUnknown) := by
  constructor
  · exact analyzeIntentCore_type_mem (pyStrip (pyLower q))
  · intro h
    unfold matchesSomeIntent at h
    simp only [Bool.or_eq_false_iff] at h
    obtain ⟨⟨⟨⟨⟨⟨⟨⟨⟨⟨⟨h1, h2⟩, h3⟩, h4⟩, h5⟩, h6⟩, h7⟩, h8⟩, h9⟩, h10⟩, h11⟩, h12⟩ := h
    unfold analyze_intent analyzeIntentCore
    simp only [h1, h2, h3, h4, h5, h6, h7, h8, h9, h10, h11, h12, Bool.false_eq_true, if_false]

/-- C6 witness: `hello` matches nothing and is classified `unknown`. -/
theorem C6_witness :
    matchesSomeIntent (pyStrip (pyLower (chars "hello"))) = false ∧
    analyze_intent (chars "hello") = intentUnknown ∧
    (analyze_intent (chars "hello")).type ∈ intentKinds :=
  ⟨by decide, (C6_classification_total (chars "hello")).2 (by decide),
   (C6_classification_total (chars "hello")).1⟩

/-- C7 counterexample: two failures of the claim. `describe` is classified
describe_table, yet no table name can be extracted from it, so synthesis
returns absent for an intent the claim says always yields SQL. And synthesis
is not exception-free: over `crashSchema` (the compact extractor's own
output for a zero-column table named `auditTable`), the data_query input
`get x` makes table-name extraction raise IndexError, which propagates out
of synthesis instead of an absent result. -/
theorem C7_counterexample :
    ((analyze_intent (chars "describe")).type = chars "describe_table" ∧
     generate_sql (chars "describe") (analyze_intent (chars "describe")) (chars "") = none ∧
     (process_query (chars "describe") (chars "")).success = false) ∧
    ((analyze_intent (chars "get x")).type = chars "data_query" ∧
     extract_table_names_raises crashSchema = true ∧
     generate_sql_exc (chars "get x") (analyze_intent (chars "get x")) crashSchema =
       Except.error ()) :=
  ⟨⟨by decide, by decide, by decide⟩, ⟨by decide, by decide, rfl⟩⟩

theorem construct_select_query_ne_nil (q schema s : List Char)
    (h : construct_select_query q schema = some s) : s ≠ [] := by
  intro hnil
  rw [hnil] at h
  simp only [construct_select_query] at h
  rcases hfind : (extract_table_names_from_schema schema).find?
      (fun t => containsSub (pyLower t) (pyLower q)) with _ | t <;>
    rw [hfind] at h <;> simp at h
  exact absurd h.2 (by decide)

/-- C7 amended: synthesis returns absent exactly for the intents
modification and unknown, for data_query where extraction does not raise
and no table resolves, and for describe_table when no table name can be
extracted (a case the claim misses); it raises — IndexError propagated from
the table-name extraction, not an absent result — exactly for data_query
over a schema with a `Table:` line holding no word after the tag; and
whenever it returns SQL, the string is non-empty. -/
theorem C7_synthesis_failure_characterization (q schema : List Char) :
    (generate_sql_exc q (analyze_intent q) schema = Except.error () ↔
      ((analyze_intent q).type = chars "data_query" ∧
       extract_table_names_raises schema = true)) ∧
    (generate_sql_exc q (analyze_intent q) schema = Except.ok none ↔
      ((analyze_intent q).type = chars "modification" ∨
       (analyze_intent q).type = chars "unknown" ∨
       ((analyze_intent q).type = chars "data_query" ∧
        extract_table_names_raises schema = false ∧
        construct_select_query q schema = none) ∨
       ((analyze_intent q).type = chars "describe_table" ∧
        pyOrOpt (analyze_intent q).table (extract_table_name (pyLower q)) = none))) ∧
    (∀ s : List Char,
      generate_sql_exc q (analyze_intent q) schema = Except.ok (some s) → s ≠ []) := by
  unfold analyze_intent
  rcases analyzeIntentCore_cases (pyStrip (pyLower q)) with h|h|h|h|h|h|h|h|h|h|h|h|h
  · rw [h]
    have hgen : generate_sql_exc q intentListTables schema =
        Except.ok (some listTablesSQL) := rfl
    refine ⟨⟨fun he => ?_, fun hx => absurd hx.1 (by decide)⟩,
      ⟨fun hn => ?_, ?_⟩, fun s hs => ?_⟩
    · rw [hgen] at he
      cases he
    · rw [hgen] at hn
      simp at hn
    · rintro (h1 | h1 | ⟨h1, _⟩ | ⟨h1, _⟩) <;> exact absurd h1 (by decide)
    · rw [hgen] at hs
      rw [← Option.some.inj (Except.ok.inj hs)]
      decide
  · rcases hcore : analyzeIntentCore (pyStrip (pyLower q)) with ⟨ty, ex, tb⟩
    rw [hcore] at h
    change ty = chars "describe_table" at h
    subst h
    have hgen : generate_sql_exc q ⟨chars "describe_table", ex, tb⟩ schema =
        Except.ok (match pyOrOpt tb (extract_table_name (pyLower q)) with
          | some t => some (describeTableSQL t)
          | none => none) := rfl
    rcases hp : pyOrOpt tb (extract_table_name (pyLower q)) with _ | t
    · refine ⟨⟨fun he => ?_, fun hx => ?_⟩,
        ⟨fun _ => Or.inr (Or.inr (Or.inr ⟨rfl, rfl⟩)), fun _ => by rw [hgen, hp]⟩,
        fun s hs => ?_⟩
      · rw [hgen, hp] at he
        cases he
      · have h1' : chars "describe_table" = chars "data_query" := hx.1
        exact absurd h1' (by decide)
      · rw [hgen, hp] at hs
        simp at hs
    · refine ⟨⟨fun he => ?_, fun hx => ?_⟩, ⟨fun hn => ?_, ?_⟩, fun s hs => ?_⟩
      · rw [hgen, hp] at he
        cases he
      · have h1' : chars "describe_table" = chars "data_query" := hx.1
        exact absurd h1' (by decide)
      · rw [hgen, hp] at hn
        simp at hn
      · rintro (h1 | h1 | ⟨h1, _⟩ | ⟨_, h4⟩)
        · have h1' : chars "describe_table" = chars "modification" := h1
          exact absurd h1' (by decide)
        · have h1' : chars "describe_table" = chars "unknown" := h1
          exact absurd h1' (by decide)
        · have h1' : chars "describe_table" = chars "data_query" := h1
          exact absurd h1' (by decide)
        · cases h4
      · rw [hgen, hp] at hs
        rw [← Option.some.inj (Except.ok.inj hs)]
        unfold describeTableSQL
        intro hnil
        exact absurd (List.append_eq_nil.mp hnil).2 (by decide)
  · rw [h]
    have hgen : generate_sql_exc q intentListIndexes schema =
        Except.ok (some listIndexesSQL) := rfl
    refine ⟨⟨fun he => ?_, fun hx => absurd hx.1 (by decide)⟩,
      ⟨fun hn => ?_, ?_⟩, fun s hs => ?_⟩
    · rw [hgen] at he
      cases he
    · rw [hgen] at hn
      simp at hn
    · rintro (h1 | h1 | ⟨h1, _⟩ | ⟨h1, _⟩) <;> exact absurd h1 (by decide)
    · rw [hgen] at hs
      rw [← Option.some.inj (Except.ok.inj hs)]
      decide
  · rw [h]
    have hgen : generate_sql_exc q intentForeignKeys schema =
        Except.ok (some foreignKeysSQL) := rfl
    refine ⟨⟨fun he => ?_, fun hx => absurd hx.1 (by decide)⟩,
      ⟨fun hn => ?_, ?_⟩, fun s hs => ?_⟩
    · rw [hgen] at he
      cases he
    · rw [hgen] at hn
      simp at hn
    · rintro (h1 | h1 | ⟨h1, _⟩ | ⟨h1, _⟩) <;> exact absurd h1 (by decide)
    · rw [hgen] at hs
      rw [← Option.some.inj (Except.ok.inj hs)]
      decide
  · rw [h]
    have hgen : generate_sql_exc q intentTableSizes schema =
        Except.ok (some tableSizesSQL) := rfl
    refine ⟨⟨fun he => ?_, fun hx => absurd hx.1 (by decide)⟩,
      ⟨fun hn => ?_, ?_⟩, fun s hs => ?_⟩
    · rw [hgen] at he
      cases he
    · rw [hgen] at hn
      simp at hn
    · rintro (h1 | h1 | ⟨h1, _⟩ | ⟨h1, _⟩) <;> exact absurd h1 (by decide)
    · rw [hgen] at hs
      rw [← Option.some.inj (Except.ok.inj hs)]
      decide
  · rw [h]
    have hgen : generate_sql_exc q intentDatabaseSize schema =
        Except.ok (some databaseSizeSQL) := rfl
    refine ⟨⟨fun he => ?_, fun hx => absurd hx.1 (by decide)⟩,
      ⟨fun hn => ?_, ?_⟩, fun s hs => ?_⟩
    · rw [hgen] at he
      cases he
    · rw [hgen] at hn
      simp at hn
    · rintro (h1 | h1 | ⟨h1, _⟩ | ⟨h1, _⟩) <;> exact absurd h1 (by decide)
    · rw [hgen] at hs
      rw [← Option.some.inj (Except.ok.inj hs)]
      decide
  · rw [h]
    have hgen : generate_sql_exc q intentRowCounts schema =
        Except.ok (some rowCountsSQL) := rfl
    refine ⟨⟨fun he => ?_, fun hx => absurd hx.1 (by decide)⟩,
      ⟨fun hn => ?_, ?_⟩, fun s hs => ?_⟩
    · rw [hgen] at he
      cases he
    · rw [hgen] at hn
      simp at hn
    · rintro (h1 | h1 | ⟨h1, _⟩ | ⟨h1, _⟩) <;> exact absurd h1 (by decide)
    · rw [hgen] at hs
      rw [← Option.some.inj (Except.ok.inj hs)]
      decide
  · rw [h]
    have hgen : generate_sql_exc q intentConnections schema =
        Except.ok (some connectionsSQL) := rfl
    refine ⟨⟨fun he => ?_, fun hx => absurd hx.1 (by decide)⟩,
      ⟨fun hn => ?_, ?_⟩, fun s hs => ?_⟩
    · rw [hgen] at he
      cases he
    · rw [hgen] at hn
      simp at hn
    · rintro (h1 | h1 | ⟨h1, _⟩ | ⟨h1, _⟩) <;> exact absurd h1 (by decide)
    · rw [hgen] at hs
      rw [← Option.some.inj (Except.ok.inj hs)]
      decide
  · rw [h]
    have hgen : generate_sql_exc q intentActiveQueries schema =
        Except.ok (some activeQueriesSQL) := rfl
    refine ⟨⟨fun he => ?_, fun hx => absurd hx.1 (by decide)⟩,
      ⟨fun hn => ?_, ?_⟩, fun s hs => ?_⟩
    · rw [hgen] at he
      cases he
    · rw [hgen] at hn
      simp at hn
    · rintro (h1 | h1 | ⟨h1, _⟩ | ⟨h1, _⟩) <;> exact absurd h1 (by decide)
    · rw [hgen] at hs
      rw [← Option.some.inj (Except.ok.inj hs)]
      decide
  · rw [h]
    have hgen : generate_sql_exc q intentStatistics schema =
        Except.ok (some statisticsSQL) := rfl
    refine ⟨⟨fun he => ?_, fun hx => absurd hx.1 (by decide)⟩,
      ⟨fun hn => ?_, ?_⟩, fun s hs => ?_⟩
    · rw [hgen] at he
      cases he
    · rw [hgen] at hn
      simp at hn
    · rintro (h1 | h1 | ⟨h1, _⟩ | ⟨h1, _⟩) <;> exact absurd h1 (by decide)
    · rw [hgen] at hs
      rw [← Option.some.inj (Except.ok.inj hs)]
      decide
  · rw [h]
    have hgen : generate_sql_exc q intentDataQuery schema =
        construct_select_query_exc q schema := rfl
    rw [hgen]
    refine ⟨⟨fun he => ⟨rfl, (construct_exc_error_iff q schema).mp he⟩,
        fun hx => (construct_exc_error_iff q schema).mpr hx.2⟩,
      ⟨fun hn => ?_, ?_⟩, fun s hs => ?_⟩
    · have hrf : extract_table_names_raises schema = false :=
        construct_exc_raises_false q schema none hn
      refine Or.inr (Or.inr (Or.inl ⟨rfl, hrf, ?_⟩))
      rw [construct_exc_ok q schema hrf] at hn
      exact Except.ok.inj hn
    · rintro (h1 | h1 | ⟨_, hrf, hcn⟩ | ⟨h1, _⟩)
      · exact absurd h1 (by decide)
      · exact absurd h1 (by decide)
      · rw [construct_exc_ok q schema hrf, hcn]
      · exact absurd h1 (by decide)
    · have hrf : extract_table_names_raises schema = false :=
        construct_exc_raises_false q schema (some s) hs
      rw [construct_exc_ok q schema hrf] at hs
      exact construct_select_query_ne_nil q schema s (Except.ok.inj hs)
  · rw [h]
    have hgen : generate_sql_exc q intentModification schema = Except.ok none := rfl
    refine ⟨⟨fun he => ?_, fun hx => absurd hx.1 (by decide)⟩,
      ⟨fun _ => Or.inl rfl, fun _ => hgen⟩, fun s hs => ?_⟩
    · rw [hgen] at he
      cases he
    · rw [hgen] at hs
      simp at hs
  · rw [h]
    have hgen : generate_sql_exc q intentUnknown schema = Except.ok none := rfl
    refine ⟨⟨fun he => ?_, fun hx => absurd hx.1 (by decide)⟩,
      ⟨fun _ => Or.inr (Or.inl rfl), fun _ => hgen⟩, fun s hs => ?_⟩
    · rw [hgen] at he
      cases he
    · rw [hgen] at hs
      simp at hs

/-- C7 witness: the characterization applied at a concrete modification
input. -/
theorem C7_witness :
    generate_sql_exc (chars "delete from users")
      (analyze_intent (chars "delete from users")) (chars "") = Except.ok none :=
  (C7_synthesis_failure_characterization (chars "delete from users") (chars "")).2.1.mpr
    (Or.inl (by decide))

/-- C8: table-name extraction on `show columns in customer_orders` returns
`customer_orders`; and in general, a capture equal to one of the stop-words
is never returned — a stop-word capture makes the loop move to the next
pattern instead. -/
theorem C8_table_name_extraction :
    extract_table_name (chars "show columns in customer_orders") =
      some (chars "customer_orders") ∧
    ∀ q w : List Char, extract_table_name q = some w → stopWords.contains w = false := by
  refine ⟨by decide, fun q w h => ?_⟩
  exact scanCaptures_not_stop _ w h

/-- C8 witness: the general part applied at the concrete extraction. -/
theorem C8_witness : stopWords.contains (chars "customer_orders") = false :=
  C8_table_name_extraction.2 (chars "show columns in customer_orders")
    (chars "customer_orders") C8_table_name_extraction.1

/-- C9: every input whose intent is modification gets the synthesis-failure
result carrying the fixed 8-item suggestion list unmodified — the list is a
constant, each item wrapping one of the spec's eight phrases as
`Try: '...'`. -/
theorem C9_modification_suggestions (q schema : List Char)
    (h : (analyze_intent q).type = chars "modification") :
    process_query q schema =
      { success := false, error := some cannotGenerateMsg,
        suggestions := some (get_suggestions q) } ∧
    get_suggestions q =
      suggestionPhrases.map (fun p => chars "Try: '" ++ p ++ chars "'") ∧
    suggestionPhrases.length = 8 := by
  have hg : generate_sql q (analyze_intent q) schema = none := by
    unfold generate_sql
    rw [h]
    rfl
  refine ⟨?_, rfl, by decide⟩
  simp only [process_query]
  rw [hg]

/-- C9 witness: `drop table actor` has modification intent and gets the
fixed suggestions. -/
theorem C9_witness :
    (analyze_intent (chars "drop table actor")).type = chars "modification" ∧
    process_query (chars "drop table actor") (chars "") =
      { success := false, error := some cannotGenerateMsg,
        suggestions := some (get_suggestions (chars "drop table actor")) } :=
  ⟨by decide,
   (C9_modification_suggestions (chars "drop table actor") (chars "") (by decide)).1⟩

set_option maxRecDepth 40000 in
/-- C10: every input with statistics intent gets safety_level `modify`,
although the statistics template is a read-only SELECT — its aliases
`inserts`, `updates`, `deletes` contain the modify keywords INSERT, UPDATE,
DELETE as substrings under the classifier's containment test, while no
dangerous keyword occurs. -/
theorem C10_statistics_safety (q schema : List Char)
    (h : (analyze_intent q).type = chars "statistics") :
    process_query q schema =
      { success := true, sql := some statisticsSQL,
        explanation := some (chars "Show database statistics"),
        safety_level := some (chars "modify"), recommendation := some modifyRec,
        warnings := some modifyWarn, intent_type := some (chars "statistics") } ∧
    containsSub (chars "INSERT") (pyUpper statisticsSQL) = true ∧
    containsSub (chars "UPDATE") (pyUpper statisticsSQL) = true ∧
    containsSub (chars "DELETE") (pyUpper statisticsSQL) = true ∧
    containsSub (chars "DROP") (pyUpper statisticsSQL) = false ∧
    containsSub (chars "TRUNCATE") (pyUpper statisticsSQL) = false ∧
    (chars "SELECT").isPrefixOf (pyStrip (pyUpper statisticsSQL)) = true := by
  have hrec : analyze_intent q = intentStatistics :=
    analyzeIntentCore_statistics_record (pyStrip (pyLower q)) h
  have hgen : generate_sql q intentStatistics schema = some statisticsSQL := rfl
  have hsafe : analyze_safety statisticsSQL =
      ⟨chars "modify", modifyRec, some modifyWarn⟩ := by decide
  refine ⟨?_, by decide, by decide, by decide, by decide, by decide, by decide⟩
  have hstep : process_query q schema =
      { success := true, sql := some statisticsSQL,
        explanation := some intentStatistics.explanation,
        safety_level := some (analyze_safety statisticsSQL).level,
        recommendation := some (analyze_safety statisticsSQL).recommendation,
        warnings := (analyze_safety statisticsSQL).warnings,
        intent_type := some intentStatistics.type } := by
    simp only [process_query]
    rw [hrec, hgen]
  rw [hstep, hsafe]
  rfl

/-- C10 witness: the input `statistics` is classified statistics, and its
processed result is marked modify. -/
theorem C10_witness :
    (analyze_intent (chars "statistics")).type = chars "statistics" ∧
    (process_query (chars "statistics") (chars "")).safety_level = some (chars "modify") :=
  ⟨by decide,
   by rw [(C10_statistics_safety (chars "statistics") (chars "") (by decide)).1]⟩
